import Mathlib

/-!
Shallow embedding of the speech-segmentation backend (`src/backend/main.py`)
and verification of the specification's claims against it.

The backend exposes two core operations:
* `detect_speech_segments` — returns the detected speech segments of an
  audio file (in the code, a fixed list of four segments, irrespective of
  the input path);
* `extract_audio_segment` — slices an audio file between two timestamps
  using pydub's millisecond-based slicing and exports the result;
* `extract_segment` — the endpoint wrapping extraction: it looks the source
  file up in the upload directory, writes the extracted clip next to it and
  returns it.

Times are modelled as rationals (the Python floats in the source are exact
decimal literals), audio sources as a sample rate plus a sample count, and
the upload directory as a list of file names.
-/

namespace SBC

/-- A detected speech segment, mirroring the dictionaries returned by
`detect_speech_segments` in `src/backend/main.py`: an `id`, `startTime`,
`endTime` and `duration` in seconds, and a display `name`. -/
structure Segment where
  id : String
  startTime : ℚ
  endTime : ℚ
  duration : ℚ
  name : String
deriving DecidableEq

/-- Embedding of `detect_speech_segments` (main.py lines 75–85): the body
ignores `audio_path` and returns the same four literal segments on every
call; it has no failure path. -/
def detect_speech_segments (audio_path : String) : List Segment :=
  [ { id := "1", startTime := 0.5, endTime := 5.2, duration := 4.7,
      name := "Speech Segment 1" },
    { id := "2", startTime := 6.8, endTime := 15.3, duration := 8.5,
      name := "Speech Segment 2" },
    { id := "3", startTime := 16.1, endTime := 22.7, duration := 6.6,
      name := "Speech Segment 3" },
    { id := "4", startTime := 24.2, endTime := 30.5, duration := 6.3,
      name := "Speech Segment 4" } ]

/-- An audio source: sample rate in Hz and total number of samples
(mono, so pydub frames coincide with samples). -/
structure AudioSource where
  frame_rate : ℕ
  n_samples : ℕ
deriving DecidableEq

/-- Duration of a source in seconds: `n_samples / frame_rate`. -/
def AudioSource.duration (src : AudioSource) : ℚ :=
  (src.n_samples : ℚ) / (src.frame_rate : ℚ)

/-- Modelled from the spec: the configuration default `minimumSegmentDuration`
(the code has no such constant); the spec fixes the default so that emitted
segments are at least 0.3 s long. -/
def minimumSegmentDuration : ℚ := 0.3

/-- Python `int()` applied to a float: truncation toward zero. -/
def pyInt (q : ℚ) : ℤ :=
  if q < 0 then -⌊-q⌋ else ⌊q⌋

/-- Python `round()` to the nearest integer, ties to even (banker's
rounding), used by pydub for `len(audio_segment)`. -/
def pyRound (q : ℚ) : ℤ :=
  if q - ⌊q⌋ < 1 / 2 then ⌊q⌋
  else if 1 / 2 < q - ⌊q⌋ then ⌊q⌋ + 1
  else if ⌊q⌋ % 2 = 0 then ⌊q⌋ else ⌊q⌋ + 1

/-- pydub `len(audio)`: the source duration rounded to whole milliseconds,
`round(1000 * (frame_count / frame_rate))`. -/
def len_ms (src : AudioSource) : ℤ :=
  pyRound (1000 * (src.n_samples : ℚ) / (src.frame_rate : ℚ))

/-- pydub `_parse_position`: a millisecond position is taken from the end
when negative, then converted to a frame index by
`int(ms * frame_rate / 1000)`. -/
def parse_position (src : AudioSource) (val : ℤ) : ℤ :=
  let v : ℤ := if val < 0 then len_ms src - |val| else val
  pyInt ((v : ℚ) * (src.frame_rate : ℚ) / 1000)

/-- Normalization of one Python sequence-slice index over a sequence of
length `n`: negative indices count from the end, and the result is clamped
to `[0, n]`. -/
def pySliceIndex (n : ℕ) (i : ℤ) : ℕ :=
  if i < 0 then ((n : ℤ) + i).toNat else min i.toNat n

/-- pydub `audio[start_ms:end_ms]` (AudioSegment.__getitem__ with a slice):
both millisecond bounds are first capped at `len(audio)`, converted to frame
indices by `_parse_position`, and the underlying data is sliced with Python
slice semantics (an empty result when the stop index does not exceed the
start index). The result is the half-open sample-index range kept. -/
def audioSlice (src : AudioSource) (start_ms end_ms : ℤ) : ℕ × ℕ :=
  let s := min start_ms (len_ms src)
  let e := min end_ms (len_ms src)
  let a := pySliceIndex src.n_samples (parse_position src s)
  let b := pySliceIndex src.n_samples (parse_position src e)
  (a, max a b)

/-- The only extraction error the spec names; the code raises no such
error anywhere. -/
inductive ExtractError
  | InvalidRangeError
deriving DecidableEq

/-- Embedding of `extract_audio_segment` (main.py lines 116–124): it
computes `start_ms = int(start * 1000)`, `end_ms = int(end * 1000)`, slices
the decoded audio at those millisecond positions and exports the slice. It
performs no range validation of any kind, so it always returns successfully;
the value is the half-open sample range of the source that ends up in the
exported file. -/
def extract_audio_segment (src : AudioSource) (start stop : ℚ) :
    Except ExtractError (ℕ × ℕ) :=
  let start_ms := pyInt (start * 1000)
  let end_ms := pyInt (stop * 1000)
  Except.ok (audioSlice src start_ms end_ms)

/-- Spec-side definition, written from the spec's words for comparison with
the code: `startSample = round(startTime × sourceSampleRate)`,
`endSample = round(endTime × sourceSampleRate)`, both clamped to
`[0, totalSamples]`. -/
def spec_sampleRange (start stop : ℚ) (rate totalSamples : ℕ) : ℕ × ℕ :=
  (min (round (start * (rate : ℚ))).toNat totalSamples,
   min (round (stop * (rate : ℚ))).toNat totalSamples)

/-- The HTTP-level failure of the extraction endpoint when no stored file
matches the requested id. -/
inductive HttpError
  | notFound
deriving DecidableEq

/-- A file name in the upload directory, split as stem and extension, so
`{stem}.{ext}`: the uploaded source for id `f` is stored as `f.{ext}` and
the glob `f.*` matches exactly the names with stem `f`. -/
structure FileName where
  stem : String
  ext : String
deriving DecidableEq

/-- Embedding of the `extract_segment` endpoint (main.py lines 88–113) at
the level of its filesystem effect. The upload directory is a list of file
names. The endpoint globs for `{file_id}.*`; with no match it returns 404
and leaves the store unchanged; otherwise it calls `extract_audio_segment`,
which exports the clip to `{file_id}_{segment_name}.mp3` inside the same
upload directory, and the endpoint returns that file. The audio content
itself is irrelevant to the persistence effect modelled here. -/
def extract_segment (store : List FileName) (file_id : String)
    (start_time end_time : ℚ) (segment_name : String) :
    Except HttpError FileName × List FileName :=
  let audio_files := store.filter (fun f => f.stem == file_id)
  match audio_files with
  | [] => (Except.error HttpError.notFound, store)
  | _ :: _ =>
    let output_path : FileName := ⟨file_id ++ "_" ++ segment_name, "mp3"⟩
    (Except.ok output_path, store ++ [output_path])

/-- C1: the claim says an all-silence 10-second buffer yields an empty
Segment sequence; the code's detection ignores the audio entirely and
returns its fixed four segments, so on the silent input the result is not
empty. -/
theorem C1_silence_input_yields_fixed_segments :
    detect_speech_segments "silence_10s.wav" ≠ [] := by
  simp [detect_speech_segments]

/-- C2: the claim says extraction fails with InvalidRangeError exactly when
the range is invalid, and in particular fails whenever endTime exceeds the
source duration; the code performs no range validation at all. On a
10-second source at 1000 Hz with endTime = 20 s it returns the clamped
sample range [0, 10000) successfully instead of failing. -/
theorem C2_out_of_range_extraction_returns_ok :
    extract_audio_segment ⟨1000, 10000⟩ 0 20 = Except.ok (0, 10000) := by
  rw [extract_audio_segment]
  norm_num [pyInt, audioSlice, len_ms, pyRound, parse_position, pySliceIndex]
  decide

/-- C3: the claim says every detected segment satisfies
endTime ≤ source duration; for a 10-second source (10000 samples at
1000 Hz) the detection output contains segment "4" with endTime 30.5 s,
which exceeds the duration. -/
theorem C3_segment_endTime_exceeds_source_duration :
    ∃ s ∈ detect_speech_segments "ten_second_audio.wav",
      (AudioSource.mk 1000 10000).duration < s.endTime :=
  ⟨{ id := "4", startTime := 24.2, endTime := 30.5, duration := 6.3,
     name := "Speech Segment 4" },
   by simp [detect_speech_segments],
   by norm_num [AudioSource.duration]⟩

/-- C4: the claim says the extracted sample range is
(round(startTime·rate), round(endTime·rate)) clamped to [0, totalSamples];
the code truncates to whole milliseconds first. At startTime = 0.0006 s on
a 48 kHz source the spec-side range starts at sample 29 while the code's
slice starts at sample 0: the code is millisecond-accurate, not
sample-accurate. -/
theorem C4_extraction_not_sample_accurate :
    extract_audio_segment ⟨48000, 480000⟩ (3 / 5000) 1 = Except.ok (0, 48000) ∧
    spec_sampleRange (3 / 5000) 1 48000 480000 = (29, 48000) := by
  constructor
  · rw [extract_audio_segment]
    norm_num [pyInt, audioSlice, len_ms, pyRound, parse_position, pySliceIndex]
    decide
  · rw [spec_sampleRange]
    norm_num [round_eq]
    decide

/-- C5: detection is deterministic: it uses no randomness and no wall
clock, and in fact does not depend on its input at all, so any two calls —
in particular two calls on identical audio — return equal Segment
sequences (same ids, timestamps and ordering). -/
theorem C5_detection_deterministic (p q : String) :
    detect_speech_segments p = detect_speech_segments q := rfl

/-- C6: in every Segment sequence produced by detection, each adjacent
pair satisfies endTime of the earlier ≤ startTime of the later, and the
start times are strictly increasing. -/
theorem C6_segments_nonoverlapping_ordered (p : String) :
    List.Chain' (fun a b => a.endTime ≤ b.startTime ∧ a.startTime < b.startTime)
      (detect_speech_segments p) := by
  simp only [detect_speech_segments, List.chain'_cons, List.chain'_singleton]
  norm_num

/-- C7: no segment emitted by detection has duration below
minimumSegmentDuration (the spec's 0.3 s default): the four emitted
durations are 4.7, 8.5, 6.6 and 6.3 seconds. -/
theorem C7_duration_floor (p : String) (s : Segment)
    (hs : s ∈ detect_speech_segments p) :
    minimumSegmentDuration ≤ s.duration := by
  fin_cases hs <;> norm_num [minimumSegmentDuration]

/-- Witness for C7 at a concrete input: the first emitted segment of some
file has duration 4.7 ≥ 0.3. -/
theorem C7_duration_floor_witness :
    minimumSegmentDuration ≤
      (Segment.mk "1" 0.5 5.2 4.7 "Speech Segment 1").duration :=
  C7_duration_floor "a.wav"
    { id := "1", startTime := 0.5, endTime := 5.2, duration := 4.7,
      name := "Speech Segment 1" }
    (by simp [detect_speech_segments])

/-- C9: the claim says a call leaves no artifact behind and the only
visible state change is the returned result; extracting from a store
holding only the uploaded source "f1.wav" leaves the store with the new
derived file "f1_segment.mp3" in it, so the store after the call differs
from the store before. -/
theorem C9_extraction_leaves_artifact :
    (extract_segment [⟨"f1", "wav"⟩] "f1" 0 1 "segment").2 =
      [⟨"f1", "wav"⟩, ⟨"f1_segment", "mp3"⟩] ∧
    (extract_segment [⟨"f1", "wav"⟩] "f1" 0 1 "segment").2 ≠ [⟨"f1", "wav"⟩] := by
  constructor
  · rfl
  · decide

/-- C10: detection is a constant function of its input path: every call
returns exactly the four fixed segments with ids "1" to "4" and timestamps
0.5–5.2, 6.8–15.3, 16.1–22.7 and 24.2–30.5, and (being a pure total
function) never fails. -/
theorem C10_detection_constant (p : String) :
    detect_speech_segments p =
      [⟨"1", 0.5, 5.2, 4.7, "Speech Segment 1"⟩,
       ⟨"2", 6.8, 15.3, 8.5, "Speech Segment 2"⟩,
       ⟨"3", 16.1, 22.7, 6.6, "Speech Segment 3"⟩,
       ⟨"4", 24.2, 30.5, 6.3, "Speech Segment 4"⟩] := rfl

end SBC
